import Mathlib

/-!
Shallow embedding of `saleor/graphql/webhook/subscription_payload.py`.

The module validates stored subscription queries and generates webhook
payloads from them via the graphql engine.  The graphql library (parser,
schema, execution engine) and Django are external dependencies: they are
represented at the boundary at which the source consumes them — the parse
outcome of `document_from_string` and the value returned by
`document.execute` — while every control-flow decision made by the source
file itself is embedded faithfully.
-/

/-- A top-level definition of a parsed graphql document, as the source
inspects it: `FragmentDefinition`, `OperationDefinition` (carrying
`definition.operation` and `definition.selection_set.selections`, here the
selected field names), or any other AST definition kind (e.g. a type-system
definition), which the source's final `else` branch rejects. -/
inductive Definition
  | fragmentDefinition
  | operationDefinition (operation : String) (selections : List String)
  | typeSystemDefinition
deriving DecidableEq

/-- Outcome of the external backend call
`graphql_backend.document_from_string(schema, query)` as the source observes
it: a parsed document (its definition list), a raised `GraphQLSyntaxError`,
or a raised `ValueError` — the two exception types the source catches. -/
inductive ParseOutcome
  | ok (defs : List Definition)
  | synErr
  | valueErr
deriving DecidableEq

/-- Model of the external `document_from_string`: only the behaviour the
source relies on is fixed here.  By the graphql grammar
(`Document : Definition+`) a source text containing no definition — in
particular the empty string — raises `GraphQLSyntaxError`; the outcome on
every other input is supplied by the `parse` oracle, over which all theorems
quantify. -/
def document_from_string (parse : String → ParseOutcome) (query : String) :
    ParseOutcome :=
  if query = "" then ParseOutcome.synErr else parse query

/-- Loop body of `check_document_is_single_subscription`: walks the
definition list accumulating the subscription operations seen so far (the
Python code appends them to a list and finally compares its length with 1;
only the count matters). -/
def checkDefsLoop : List Definition → Nat → Bool
  | [], subs => subs == 1
  | Definition.fragmentDefinition :: rest, subs => checkDefsLoop rest subs
  | Definition.operationDefinition operation selections :: rest, subs =>
      if operation = "subscription" then
        if selections.length ≠ 1 then false
        else checkDefsLoop rest (subs + 1)
      else false
  | Definition.typeSystemDefinition :: _, _ => false

/-- Embedding of `check_document_is_single_subscription(document)`
(subscription_payload.py lines 52-71): only fragments and a single
subscription definition with exactly one selection are allowed. -/
def check_document_is_single_subscription (defs : List Definition) : Bool :=
  checkDefsLoop defs 0

/-- Embedding of `validate_subscription_query(query)` (lines 24-34): parse
the query via the backend, return `false` on a caught `ValueError` or
`GraphQLSyntaxError`, otherwise defer to
`check_document_is_single_subscription`.  The function is total: no
exception reaches the caller. -/
def validate_subscription_query (parse : String → ParseOutcome)
    (query : String) : Bool :=
  match document_from_string parse query with
  | ParseOutcome.synErr => false
  | ParseOutcome.valueErr => false
  | ParseOutcome.ok defs => check_document_is_single_subscription defs

/-- The Django `ValidationError` raised by `validate_query`, reduced to the
data the source puts into it: the field key of the error dict, the message,
and the machine-readable code. -/
structure ValidationError where
  field : String
  message : String
  code : String
deriving DecidableEq

/-- Model of the spec: `WebhookErrorCode.INVALID.value`
(saleor/webhook/error_codes.py, not under src/) — the machine-readable
error code named `INVALID` by the spec. -/
def WebhookErrorCode_INVALID : String := "INVALID"

/-- Embedding of `validate_query(query)` (lines 37-49): falsy input (absent
or empty string) returns immediately; otherwise a failed
`validate_subscription_query` raises a `ValidationError` field-scoped to
"query". -/
def validate_query (parse : String → ParseOutcome) (query : Option String) :
    Except ValidationError Unit :=
  match query with
  | none => Except.ok ()
  | some q =>
      if q = "" then Except.ok ()
      else if validate_subscription_query parse q then Except.ok ()
      else Except.error
        (ValidationError.mk "query" "Subscription query is not valid"
          WebhookErrorCode_INVALID)

/-- Python values as the payload-generation code handles them: `None`,
strings, dicts (association lists), lists, and `Promise` objects.  A
`promise` carries its resolution value; the promise library assimilates
thenables, so a real resolved value is never itself a `Promise` — the type
does not enforce this, theorems assume it where they need it. -/
inductive PyVal
  | none
  | str (s : String)
  | dict (fields : List (String × PyVal))
  | list (items : List PyVal)
  | promise (v : PyVal)

/-- Python `fields.get(key)`: the value bound to `key`, or `None` when the
key is absent. -/
def dictGet (fields : List (String × PyVal)) (key : String) : PyVal :=
  match fields with
  | [] => PyVal.none
  | (k, v) :: rest => if k = key then v else dictGet rest key

/-- Python `fields[key] = v`: replace the value bound to `key`, or append
the binding when the key is absent. -/
def dictSet (fields : List (String × PyVal)) (key : String) (v : PyVal) :
    List (String × PyVal) :=
  match fields with
  | [] => [(key, v)]
  | (k, w) :: rest =>
      if k = key then (k, v) :: rest else (k, w) :: dictSet rest key v

/-- Membership test for a key of an association list. -/
def fieldsHasKey (fields : List (String × PyVal)) (key : String) : Bool :=
  fields.any (fun kv => kv.1 == key)

/-- Whether a Python value is a dict carrying the given key. -/
def PyVal.hasKey : PyVal → String → Bool
  | PyVal.dict fields, key => fieldsHasKey fields key
  | _, _ => false

/-- Key lookup on a Python value: dict lookup, `None` on anything else. -/
def PyVal.getKey : PyVal → String → PyVal
  | PyVal.dict fields, key => dictGet fields key
  | _, _ => PyVal.none

/-- Whether a Python value is an unresolved `Promise` object. -/
def PyVal.isPromise : PyVal → Bool
  | PyVal.promise _ => true
  | _ => false

/-- Embedding of `get_event_payload(event)` (lines 104-109): resolve the
value via `event.get()` when it is a `Promise`, otherwise return it as is. -/
def get_event_payload (event : PyVal) : PyVal :=
  match event with
  | PyVal.promise v => v
  | e => e

/-- A raw execution-time error as fed to `format_error`: either an instance
of one of the recognized kinds (`GraphQLError`, `PermissionDenied`) or any
other exception. -/
inductive RawError
  | recognized (message : String) (path : List String) (code : String)
  | unrecognized (message : String)

/-- Model of the spec: `format_error(error, (GraphQLError, PermissionDenied))`
(saleor/graphql/utils, not under src/) normalizes a raw error to a record
carrying at minimum a message; errors of recognized kinds keep their
structured fields (path, code), unrecognized ones degrade to a message-only
record. -/
def format_error : RawError → PyVal
  | RawError.recognized message path code =>
      PyVal.dict
        [("message", PyVal.str message),
         ("path", PyVal.list (path.map PyVal.str)),
         ("code", PyVal.str code)]
  | RawError.unrecognized message =>
      PyVal.dict [("message", PyVal.str message)]

/-- One result emitted by the subscription stream (a graphql
`ExecutionResult` collected by `results.subscribe(payload.append)`): its
`data` mapping and its list of field-level `errors` (Python truthiness of
`payload_instance.errors` is emptiness of this list). -/
structure ExecutionResult where
  data : List (String × PyVal)
  errors : List RawError

/-- Outcome of the external engine call
`document.execute(allow_subscriptions=True, root=..., context=...)` as the
source observes it: either a plain result object exposing an `errors`
attribute (`hasattr(results, "errors")`, carrying `str(results.errors)`),
or a subscribable stream of emitted results. -/
inductive ExecOutcome
  | failed (errors_repr : String)
  | stream (emitted : List ExecutionResult)

/-- One warning record produced by `logger.warning(msg, extra={...})`: the
message and the `query` and `app` entries of the `extra` dict. -/
structure LogEntry where
  message : String
  query : Option String
  app : Option Nat
deriving DecidableEq

/-- A Python exception escaping the payload generator (a `TypeError` from
item assignment on a non-dict). -/
inductive PyError
  | typeError (msg : String)
deriving DecidableEq

/-- Embedding of the result-processing part of
`generate_payload_from_subscription` (lines 148-180).  The external engine
call is abstracted by the `results` argument; `app_id` is `app.pk if app
else None`.  The function returns the produced payload (`PyVal.none`
standing for Python `None`, i.e. no payload) together with the warnings
logged, or a raised exception. -/
def generate_payload_from_subscription (subscription_query : String)
    (app_id : Option Nat) (results : ExecOutcome) :
    Except PyError (PyVal × List LogEntry) :=
  match results with
  | ExecOutcome.failed errors_repr =>
      Except.ok (PyVal.none,
        [LogEntry.mk
          ("Unable to build a payload for subscription. \nerror: " ++
            errors_repr)
          (some subscription_query) app_id])
  | ExecOutcome.stream [] =>
      Except.ok (PyVal.none,
        [LogEntry.mk "Subscription did not return a payload."
          (some subscription_query) app_id])
  | ExecOutcome.stream (payload_instance :: _) =>
      let event_payload :=
        get_event_payload (dictGet payload_instance.data "event")
      if payload_instance.errors.isEmpty then
        Except.ok (event_payload, [])
      else
        match event_payload with
        | PyVal.dict fields =>
            Except.ok
              (PyVal.dict
                (dictSet fields "errors"
                  (PyVal.list (payload_instance.errors.map format_error))),
               [])
        | _ =>
            Except.error
              (PyError.typeError "object does not support item assignment")

/-- Whether a single definition satisfies the spec's per-definition rule:
fragments are ignored, every other definition must be a subscription
operation with exactly one selection. -/
def defOk : Definition → Bool
  | Definition.fragmentDefinition => true
  | Definition.operationDefinition operation selections =>
      operation == "subscription" && selections.length == 1
  | Definition.typeSystemDefinition => false

/-- Whether a definition is a subscription operation. -/
def isSubscriptionOp : Definition → Bool
  | Definition.operationDefinition operation _ => operation == "subscription"
  | _ => false

/-- The spec's acceptability predicate on a parsed document, written from
the claim's words: ignoring fragments, every top-level definition is a
subscription operation with exactly one selection, and there is exactly one
subscription operation. -/
def specAcceptable (defs : List Definition) : Prop :=
  (∀ d ∈ defs, defOk d = true) ∧ defs.countP isSubscriptionOp = 1

theorem checkDefsLoop_eq_true_iff (defs : List Definition) (n : Nat) :
    checkDefsLoop defs n = true ↔
      ((∀ d ∈ defs, defOk d = true) ∧
        n + defs.countP isSubscriptionOp = 1) := by
  induction defs generalizing n with
  | nil => simp [checkDefsLoop]
  | cons d rest ih =>
    cases d with
    | fragmentDefinition =>
        have hneg : ¬ isSubscriptionOp Definition.fragmentDefinition = true :=
          by simp [isSubscriptionOp]
        rw [show checkDefsLoop (Definition.fragmentDefinition :: rest) n =
              checkDefsLoop rest n from rfl, ih,
            List.countP_cons_of_neg _ _ hneg]
        simp [defOk]
    | operationDefinition operation selections =>
        by_cases hop : operation = "subscription"
        · subst hop
          by_cases hlen : selections.length = 1
          · have hstep : checkDefsLoop
                (Definition.operationDefinition "subscription" selections ::
                  rest) n = checkDefsLoop rest (n + 1) := by
              simp [checkDefsLoop, hlen]
            have hdef : defOk
                (Definition.operationDefinition "subscription" selections) =
                true := by
              simp [defOk, hlen]
            have hpos : isSubscriptionOp
                (Definition.operationDefinition "subscription" selections) =
                true := by simp [isSubscriptionOp]
            rw [hstep, ih, List.countP_cons_of_pos _ _ hpos]
            simp only [List.mem_cons, forall_eq_or_imp, hdef, true_and]
            constructor
            · rintro ⟨hall, hcount⟩
              exact ⟨hall, by omega⟩
            · rintro ⟨hall, hcount⟩
              exact ⟨hall, by omega⟩
          · have hstep : checkDefsLoop
                (Definition.operationDefinition "subscription" selections ::
                  rest) n = false := by
              simp [checkDefsLoop, hlen]
            rw [hstep]
            simp only [Bool.false_eq_true, false_iff]
            rintro ⟨hall, -⟩
            have hbad := hall _ (List.mem_cons_self _ _)
            simp [defOk, hlen] at hbad
        · have hstep : checkDefsLoop
              (Definition.operationDefinition operation selections :: rest)
              n = false := by
            simp [checkDefsLoop, hop]
          rw [hstep]
          simp only [Bool.false_eq_true, false_iff]
          rintro ⟨hall, -⟩
          have hbad := hall _ (List.mem_cons_self _ _)
          simp [defOk, hop] at hbad
    | typeSystemDefinition =>
        rw [show checkDefsLoop (Definition.typeSystemDefinition :: rest) n =
              false from rfl]
        simp only [Bool.false_eq_true, false_iff]
        rintro ⟨hall, -⟩
        have hbad := hall _ (List.mem_cons_self _ _)
        simp [defOk] at hbad

/-- C2: for every query whose backend parse succeeds with a document,
`validate_subscription_query` returns true iff, ignoring fragment
definitions, every top-level definition is a subscription operation with
exactly one selection and there is exactly one subscription operation. -/
theorem c2_validate_iff_single_subscription (parse : String → ParseOutcome)
    (query : String) (defs : List Definition)
    (h : document_from_string parse query = ParseOutcome.ok defs) :
    validate_subscription_query parse query = true ↔ specAcceptable defs := by
  unfold validate_subscription_query
  rw [h]
  unfold check_document_is_single_subscription specAcceptable
  rw [checkDefsLoop_eq_true_iff]
  simp

theorem c2_witness :
    (document_from_string
        (fun _ => ParseOutcome.ok
          [Definition.operationDefinition "subscription" ["event"]])
        "subscription \x7b event \x7b id \x7d \x7d" =
      ParseOutcome.ok
        [Definition.operationDefinition "subscription" ["event"]]) ∧
    (validate_subscription_query
        (fun _ => ParseOutcome.ok
          [Definition.operationDefinition "subscription" ["event"]])
        "subscription \x7b event \x7b id \x7d \x7d" = true ↔
      specAcceptable
        [Definition.operationDefinition "subscription" ["event"]]) :=
  ⟨by decide, c2_validate_iff_single_subscription _ _ _ (by decide)⟩

/-- C3 counterexample: on the empty string the boolean validator returns
false (the empty document has no definition, hence a syntax error), even
under a parse oracle that would accept everything — contradicting the claim
that `validate_subscription_query` succeeds trivially on empty input. -/
theorem c3_counterexample :
    validate_subscription_query (fun _ => ParseOutcome.ok []) "" = false :=
  rfl

/-- C3 amended: the trivial success on empty/absent input belongs to
`validate_query`, the wrapper, which returns without raising for `None` and
for the empty string; `validate_subscription_query` itself returns false on
the empty string, whose parse is a syntax error. -/
theorem c3_empty_query_handling (parse : String → ParseOutcome) :
    validate_query parse none = Except.ok () ∧
    validate_query parse (some "") = Except.ok () ∧
    validate_subscription_query parse "" = false := by
  refine ⟨rfl, rfl, ?_⟩
  unfold validate_subscription_query document_from_string
  simp

/-- C8: whenever the backend parse raises a syntax error,
`validate_subscription_query` returns false; being a total function into
`Bool`, it surfaces no exception to its caller. -/
theorem c8_syntax_error_returns_false (parse : String → ParseOutcome)
    (query : String)
    (h : document_from_string parse query = ParseOutcome.synErr) :
    validate_subscription_query parse query = false := by
  unfold validate_subscription_query
  rw [h]

theorem c8_witness :
    (document_from_string (fun _ => ParseOutcome.synErr)
        "subscription \x7b" = ParseOutcome.synErr) ∧
    validate_subscription_query (fun _ => ParseOutcome.synErr)
        "subscription \x7b" = false :=
  ⟨by decide, c8_syntax_error_returns_false _ _ (by decide)⟩

/-- C9: `validate_query` raises a `ValidationError` — field-scoped to
"query", message "Subscription query is not valid", code `INVALID` — iff
its input is a non-empty query failing validation; for absent or empty
input it returns without raising. -/
theorem c9_validate_query_raises_iff (parse : String → ParseOutcome)
    (query : Option String) :
    (validate_query parse none = Except.ok ()) ∧
    (validate_query parse (some "") = Except.ok ()) ∧
    ((∃ e, validate_query parse query = Except.error e) ↔
      ∃ q, query = some q ∧ q ≠ "" ∧
        validate_subscription_query parse q = false) ∧
    (∀ e, validate_query parse query = Except.error e →
      e = ValidationError.mk "query" "Subscription query is not valid"
        WebhookErrorCode_INVALID) := by
  refine ⟨rfl, rfl, ?_, ?_⟩
  · cases query with
    | none => simp [validate_query]
    | some q =>
        by_cases hq : q = ""
        · subst hq
          simp [validate_query]
        · by_cases hv : validate_subscription_query parse q = true
          · simp [validate_query, hq, hv]
          · simp only [Bool.not_eq_true] at hv
            simp [validate_query, hq, hv]
  · intro e he
    cases query with
    | none => simp [validate_query] at he
    | some q =>
        by_cases hq : q = ""
        · subst hq
          simp [validate_query] at he
        · by_cases hv : validate_subscription_query parse q = true
          · simp [validate_query, hq, hv] at he
          · simp only [Bool.not_eq_true] at hv
            simp [validate_query, hq, hv] at he
            exact he.symm

theorem dictGet_eq_none_of_not_mem (fields : List (String × PyVal))
    (key : String) (h : key ∉ fields.map Prod.fst) :
    dictGet fields key = PyVal.none := by
  induction fields with
  | nil => rfl
  | cons kv rest ih =>
      obtain ⟨k, v⟩ := kv
      simp only [List.map_cons, List.mem_cons] at h
      push_neg at h
      rw [dictGet, if_neg (fun hk => h.1 hk.symm)]
      exact ih h.2

theorem fieldsHasKey_dictSet_self (fields : List (String × PyVal))
    (key : String) (v : PyVal) :
    fieldsHasKey (dictSet fields key v) key = true := by
  induction fields with
  | nil => simp [dictSet, fieldsHasKey]
  | cons kv rest ih =>
      obtain ⟨k, w⟩ := kv
      by_cases hk : k = key
      · simp [dictSet, hk, fieldsHasKey]
      · simp only [dictSet, if_neg hk, fieldsHasKey, List.any_cons]
        rw [fieldsHasKey] at ih
        simp [ih]

theorem dictGet_dictSet_self (fields : List (String × PyVal))
    (key : String) (v : PyVal) :
    dictGet (dictSet fields key v) key = v := by
  induction fields with
  | nil => simp [dictSet, dictGet]
  | cons kv rest ih =>
      obtain ⟨k, w⟩ := kv
      by_cases hk : k = key
      · simp [dictSet, hk, dictGet]
      · simp [dictSet, hk, dictGet, ih]

theorem dictGet_dictSet_other (fields : List (String × PyVal))
    (key : String) (v : PyVal) (k : String) (h : k ≠ key) :
    dictGet (dictSet fields key v) k = dictGet fields k := by
  have hne : key ≠ k := Ne.symm h
  induction fields with
  | nil => simp [dictSet, dictGet, hne]
  | cons kv rest ih =>
      obtain ⟨k0, w⟩ := kv
      by_cases hk0 : k0 = key
      · subst hk0
        simp [dictSet, dictGet, hne]
      · by_cases hk1 : k0 = k
        · subst hk1
          simp [dictSet, hk0, dictGet]
        · simp [dictSet, hk0, dictGet, hk1, ih]

/-- C1 counterexample: for the claim's own example — query
`subscription { event { id } }`, first emitted result with data
`{"event": {"id": "42"}}` and no errors — the function returns the value
bound to `"event"`, namely `{"id": "42"}`, not the claimed wrapper mapping
`{"event": {"id": "42"}}`. -/
theorem c1_counterexample :
    generate_payload_from_subscription
        "subscription \x7b event \x7b id \x7d \x7d" none
        (ExecOutcome.stream
          [ExecutionResult.mk
            [("event", PyVal.dict [("id", PyVal.str "42")])] []]) =
      Except.ok (PyVal.dict [("id", PyVal.str "42")], []) ∧
    PyVal.dict [("id", PyVal.str "42")] ≠
      PyVal.dict [("event", PyVal.dict [("id", PyVal.str "42")])] := by
  refine ⟨rfl, ?_⟩
  simp

/-- C1 amended: when the first emitted result carries no field-level errors,
the returned payload is the resolved value bound to the key `"event"` of the
result's data — the mapping of the sub-fields selected under the single
`event` field, not wrapped under the field's name — and no `errors` key is
added. -/
theorem c1_payload_is_event_value (subscription_query : String)
    (app_id : Option Nat) (r : ExecutionResult) (rest : List ExecutionResult)
    (h : r.errors = []) :
    generate_payload_from_subscription subscription_query app_id
        (ExecOutcome.stream (r :: rest)) =
      Except.ok (get_event_payload (dictGet r.data "event"), []) := by
  simp only [generate_payload_from_subscription]
  rw [h]
  rfl

theorem c1_witness :
    generate_payload_from_subscription
        "subscription \x7b event \x7b id \x7d \x7d" none
        (ExecOutcome.stream
          [ExecutionResult.mk
            [("event", PyVal.dict [("id", PyVal.str "42")])] []]) =
      Except.ok
        (get_event_payload
          (dictGet [("event", PyVal.dict [("id", PyVal.str "42")])] "event"),
         []) :=
  c1_payload_is_event_value _ _ _ _ rfl

/-- C4: when execution returns a plain result carrying top-level errors
(the `hasattr(results, "errors")` branch), the function returns `None` —
no exception — after logging exactly one warning whose extra context holds
the query text and the app identity. -/
theorem c4_top_level_errors_soft_fail (subscription_query : String)
    (app_id : Option Nat) (errors_repr : String) :
    generate_payload_from_subscription subscription_query app_id
        (ExecOutcome.failed errors_repr) =
      Except.ok (PyVal.none,
        [LogEntry.mk
          ("Unable to build a payload for subscription. \nerror: " ++
            errors_repr)
          (some subscription_query) app_id]) :=
  rfl

/-- C5: when execution succeeds but the subscription emits zero results,
the function returns `None` (absence, not an empty mapping) and logs a
warning. -/
theorem c5_empty_stream_returns_none (subscription_query : String)
    (app_id : Option Nat) :
    generate_payload_from_subscription subscription_query app_id
        (ExecOutcome.stream []) =
      Except.ok (PyVal.none,
        [LogEntry.mk "Subscription did not return a payload."
          (some subscription_query) app_id]) :=
  rfl

theorem generate_payload_stream_cons (subscription_query : String)
    (app_id : Option Nat) (r : ExecutionResult)
    (rest : List ExecutionResult) :
    generate_payload_from_subscription subscription_query app_id
        (ExecOutcome.stream (r :: rest)) =
      (if r.errors.isEmpty then
        Except.ok (get_event_payload (dictGet r.data "event"), [])
      else
        match get_event_payload (dictGet r.data "event") with
        | PyVal.dict fields =>
            Except.ok
              (PyVal.dict
                (dictSet fields "errors"
                  (PyVal.list (r.errors.map format_error))), [])
        | _ =>
            Except.error
              (PyError.typeError "object does not support item assignment")) :=
  rfl

/-- C6 counterexample: a first emitted result whose data is
`{"event": {"errors": "42"}}` with an empty error list (e.g. the query
aliased a sub-field as `errors`) yields a payload that does contain an
`"errors"` key although no field-level error was carried — refuting the
claimed `if and only if`. -/
theorem c6_counterexample :
    generate_payload_from_subscription
        "subscription \x7b event \x7b errors: id \x7d \x7d" none
        (ExecOutcome.stream
          [ExecutionResult.mk
            [("event", PyVal.dict [("errors", PyVal.str "42")])] []]) =
      Except.ok (PyVal.dict [("errors", PyVal.str "42")], []) ∧
    PyVal.hasKey (PyVal.dict [("errors", PyVal.str "42")]) "errors" = true :=
  ⟨rfl, rfl⟩

/-- C6 amended: when the event value of the first emitted result is a
mapping, the function returns it as the payload; the payload carries an
`"errors"` key iff the result's field-level error list is non-empty or the
event mapping itself already had one; a non-empty error list is normalized
via `format_error` and merged under `"errors"` while every other field of
the mapping is preserved; an empty error list leaves the mapping untouched
(no `errors` key is added). -/
theorem c6_errors_key_merging (subscription_query : String)
    (app_id : Option Nat) (data : List (String × PyVal))
    (errs : List RawError) (rest : List ExecutionResult)
    (fields : List (String × PyVal))
    (h : get_event_payload (dictGet data "event") = PyVal.dict fields) :
    ∃ p, generate_payload_from_subscription subscription_query app_id
        (ExecOutcome.stream (ExecutionResult.mk data errs :: rest)) =
          Except.ok (p, []) ∧
      PyVal.hasKey p "errors" =
        (!errs.isEmpty || fieldsHasKey fields "errors") ∧
      (∀ k, k ≠ "errors" → PyVal.getKey p k = dictGet fields k) ∧
      (errs.isEmpty = false →
        PyVal.getKey p "errors" = PyVal.list (errs.map format_error)) ∧
      (errs.isEmpty = true → p = PyVal.dict fields) := by
  by_cases he : errs.isEmpty
  · refine ⟨PyVal.dict fields, ?_, ?_, ?_, ?_, ?_⟩
    · rw [generate_payload_stream_cons]
      simp only [he, if_true]
      rw [h]
    · simp [PyVal.hasKey, he]
    · intro k _
      rfl
    · intro hfalse
      rw [he] at hfalse
      cases hfalse
    · intro _
      rfl
  · have he' : errs.isEmpty = false := by
      simp only [Bool.not_eq_true] at he
      exact he
    refine ⟨PyVal.dict
      (dictSet fields "errors" (PyVal.list (errs.map format_error))),
      ?_, ?_, ?_, ?_, ?_⟩
    · rw [generate_payload_stream_cons]
      simp only [he', Bool.false_eq_true, if_false]
      rw [h]
    · simp [PyVal.hasKey, he', fieldsHasKey_dictSet_self]
    · intro k hk
      simp only [PyVal.getKey]
      exact dictGet_dictSet_other _ _ _ _ hk
    · intro _
      simp only [PyVal.getKey]
      exact dictGet_dictSet_self _ _ _
    · intro htrue
      rw [he'] at htrue
      cases htrue

theorem c6_witness :
    ∃ p, generate_payload_from_subscription "q" none
        (ExecOutcome.stream
          [ExecutionResult.mk [("event", PyVal.dict [("id", PyVal.str "1")])]
            [RawError.unrecognized "boom"]]) = Except.ok (p, []) ∧
      PyVal.hasKey p "errors" =
        (!(List.isEmpty [RawError.unrecognized "boom"]) ||
          fieldsHasKey [("id", PyVal.str "1")] "errors") ∧
      (∀ k, k ≠ "errors" →
        PyVal.getKey p k = dictGet [("id", PyVal.str "1")] k) ∧
      (List.isEmpty [RawError.unrecognized "boom"] = false →
        PyVal.getKey p "errors" =
          PyVal.list (List.map format_error [RawError.unrecognized "boom"])) ∧
      (List.isEmpty [RawError.unrecognized "boom"] = true →
        p = PyVal.dict [("id", PyVal.str "1")]) :=
  c6_errors_key_merging "q" none _ _ [] _ rfl

/-- C7: when the first emitted result's event value is a `Promise` (whose
resolution value is itself no promise, as the promise library guarantees by
assimilation), any payload the function returns is not an unresolved
promise: the value was resolved synchronously via `event.get()`. -/
theorem c7_no_promise_leak (subscription_query : String) (app_id : Option Nat)
    (r : ExecutionResult) (rest : List ExecutionResult) (v : PyVal)
    (h1 : dictGet r.data "event" = PyVal.promise v)
    (h2 : PyVal.isPromise v = false)
    (p : PyVal) (logs : List LogEntry)
    (h3 : generate_payload_from_subscription subscription_query app_id
        (ExecOutcome.stream (r :: rest)) = Except.ok (p, logs)) :
    PyVal.isPromise p = false := by
  rw [generate_payload_stream_cons, h1,
    show get_event_payload (PyVal.promise v) = v from rfl] at h3
  by_cases he : r.errors.isEmpty
  · rw [if_pos he] at h3
    simp only [Except.ok.injEq, Prod.mk.injEq] at h3
    rw [← h3.1]
    exact h2
  · rw [if_neg he] at h3
    cases v with
    | dict fields =>
        simp only [Except.ok.injEq, Prod.mk.injEq] at h3
        rw [← h3.1]
        rfl
    | promise w => simp [PyVal.isPromise] at h2
    | none => simp at h3
    | str s => simp at h3
    | list items => simp at h3

theorem c7_witness :
    PyVal.isPromise (PyVal.dict [("id", PyVal.str "42")]) = false :=
  c7_no_promise_leak "q" none
    (ExecutionResult.mk
      [("event", PyVal.promise (PyVal.dict [("id", PyVal.str "42")]))] [])
    [] (PyVal.dict [("id", PyVal.str "42")]) rfl rfl
    (PyVal.dict [("id", PyVal.str "42")]) [] rfl

/-- C10: payload extraction is hard-wired to the key `"event"`: when the
first emitted result's data has no `"event"` key and carries no field-level
errors, the function returns `None`, whatever field the query selected. -/
theorem c10_missing_event_key_returns_none (subscription_query : String)
    (app_id : Option Nat) (r : ExecutionResult) (rest : List ExecutionResult)
    (h1 : "event" ∉ r.data.map Prod.fst) (h2 : r.errors = []) :
    generate_payload_from_subscription subscription_query app_id
        (ExecOutcome.stream (r :: rest)) = Except.ok (PyVal.none, []) := by
  rw [generate_payload_stream_cons, dictGet_eq_none_of_not_mem _ _ h1, h2]
  rfl

theorem c10_witness :
    generate_payload_from_subscription "q" none
        (ExecOutcome.stream
          [ExecutionResult.mk [("order", PyVal.dict [])] []]) =
      Except.ok (PyVal.none, []) :=
  c10_missing_event_key_returns_none "q" none _ [] (by simp) rfl
